import Mathlib

/-!
# Verification of the web-document-signature core

Shallow embedding of the signing-workflow coordinator
(`src/backend/src/index.ts`, `signingRequestController`), the finalization
engine (`src/backend/src/controllers/finalizeController.ts`), the
recipient access gateway
(`src/backend/src/controllers/documentRecipientController.ts`) and the
frontend coordinate transform (`src/frontend/src/pages/SignDocument.tsx`),
together with theorems settling the spec's claims about them.

JavaScript `null | undefined | string` values are modelled as
`Option String`; the JS truthiness test `!v` on such a value is `none` or
`some ""`. Numbers that the code only adds, compares and scales are
modelled as `ℚ` (no overflow or rounding occurs in the modelled paths);
indices and counters are `Nat`. Database records reachable from one
document are passed explicitly as lists. Timestamps are an abstract `Nat`
parameter `now`.
-/

namespace WebSign

/-- JS truthiness of an optional string: `!v` is true exactly when the
value is `null`/`undefined` or the empty string. -/
def jsTruthy : Option String → Bool
  | none => false
  | some s => s ≠ ""

/-- In-place update of the `i`-th element of a list, the embedding of a
JS array-element mutation `arr[i].field = …`; out-of-range indices leave
the list unchanged. -/
def updateAt {α : Type} : List α → Nat → (α → α) → List α
  | [], _, _ => []
  | a :: t, 0, f => f a :: t
  | a :: t, n + 1, f => a :: updateAt t n f

/-! ## Signing workflow coordinator (`signingRequestController`) -/

/-- `SigningRequest.status` enum from the Mongoose model. -/
inductive SReqStatus
  | pending
  | in_progress
  | completed
  | expired
  | cancelled
deriving DecidableEq, Repr

/-- `SignerInfo.status` values used by the controller. -/
inductive SignerStatus
  | pending
  | signed
  | rejected
deriving DecidableEq, Repr

/-- `signingOrder` mode. -/
inductive SigningOrder
  | sequential
  | parallel
deriving DecidableEq, Repr

/-- One entry of `SigningRequest.signers`. -/
structure SignerInfo where
  email : String
  name : String
  status : SignerStatus
  signedAt : Option Nat
deriving DecidableEq, Repr

/-- The fields of a `SigningRequest` document that `signByToken`,
`cancel` and `resend` read or write. -/
structure SigningRequest where
  signers : List SignerInfo
  signingOrder : SigningOrder
  status : SReqStatus
  currentSignerIndex : Nat
  expiresAt : Option Nat
  completedAt : Option Nat
deriving DecidableEq, Repr

/-- Result of a `signByToken` call on a request that was found by its
token (the 404 for an unknown token happens before any of the logic
modelled here). `forbiddenNotSigner` and `forbiddenNotTurn` are the two
403 responses; `rejected` and `signed` carry the saved request. -/
inductive SignOutcome
  | forbiddenNotSigner
  | forbiddenNotTurn
  | rejected (sr : SigningRequest)
  | signed (sr : SigningRequest) (completed : Bool)
deriving DecidableEq, Repr

/-- The signature branch of `signByToken`
(`src/backend/src/index.ts`, after the rejection branch): marks the
signer at `idx` signed with a timestamp, increments
`currentSignerIndex` when sequential, then recomputes the overall
status: `completed` iff every signer is signed, else `in_progress`. -/
def signSuccess (now : Nat) (sr : SigningRequest) (idx : Nat) : SignOutcome :=
  let signers' := updateAt sr.signers idx
    (fun s => { s with status := SignerStatus.signed, signedAt := some now })
  let allSigned := signers'.all (fun s => s.status == SignerStatus.signed)
  SignOutcome.signed
    { sr with
      signers := signers'
      currentSignerIndex :=
        if sr.signingOrder == SigningOrder.sequential then
          sr.currentSignerIndex + 1
        else sr.currentSignerIndex
      status :=
        if allSigned then SReqStatus.completed else SReqStatus.in_progress
      completedAt := if allSigned then some now else sr.completedAt }
    allSigned

/-- `signingRequestController.signByToken` (`src/backend/src/index.ts`),
after the request has been found by token. Looks up the signer by email
with `findIndex`; 403 when absent; in sequential mode 403 when the found
index is not `currentSignerIndex`; then either the rejection branch
(marks that signer rejected and saves, with no other state change) or
the signature branch `signSuccess`. Note: the controller performs no
check of `sr.status` on this path. -/
def signByToken (now : Nat) (sr : SigningRequest) (email : String)
    (rejectReason : Option String) : SignOutcome :=
  match sr.signers.findIdx? (fun s => s.email == email) with
  | none => SignOutcome.forbiddenNotSigner
  | some idx =>
    if sr.signingOrder == SigningOrder.sequential
        && !(idx == sr.currentSignerIndex) then
      SignOutcome.forbiddenNotTurn
    else
      match rejectReason with
      | some _ =>
        SignOutcome.rejected
          { sr with
            signers := updateAt sr.signers idx
              (fun s => { s with status := SignerStatus.rejected }) }
      | none => signSuccess now sr idx

/-- `signingRequestController.cancel` (`src/backend/src/index.ts`), after
the owner-scoped lookup succeeded: 400 only when the request is already
`completed`; otherwise forces `cancelled`. -/
def cancel (sr : SigningRequest) : Option SigningRequest :=
  if sr.status == SReqStatus.completed then none
  else some { sr with status := SReqStatus.cancelled }

/-- The request status stored by a `signByToken` outcome, when the call
succeeded and saved the request. -/
def savedStatus : SignOutcome → Option SReqStatus
  | SignOutcome.signed sr _ => some sr.status
  | SignOutcome.rejected sr => some sr.status
  | _ => none

/-- A cancelled one-signer parallel request, still holding a pending
signer: the concrete input on which `signByToken` escapes a terminal
state. -/
def srCancelled : SigningRequest :=
  { signers := [⟨"a@example.com", "Alice", SignerStatus.pending, none⟩]
    signingOrder := SigningOrder.parallel
    status := SReqStatus.cancelled
    currentSignerIndex := 0
    expiresAt := none
    completedAt := none }

/-- An expired two-signer request with both signers pending, used to show
`cancel` moves a request out of the `expired` terminal state. -/
def srExpired : SigningRequest :=
  { signers :=
      [⟨"a@example.com", "Alice", SignerStatus.pending, none⟩,
       ⟨"b@example.com", "Bob", SignerStatus.pending, none⟩]
    signingOrder := SigningOrder.parallel
    status := SReqStatus.expired
    currentSignerIndex := 0
    expiresAt := some 1
    completedAt := none }

/-- The `currentSignerIndex` stored by a successful `signByToken`
outcome. -/
def savedIndex : SignOutcome → Option Nat
  | SignOutcome.signed sr _ => some sr.currentSignerIndex
  | _ => none

/-- Inversion: a `signByToken` call that returned `signed` found the
signer by `findIndex` and took the signature branch. -/
theorem signByToken_eq_signed {now : Nat} {sr : SigningRequest} {email : String}
    {r : Option String} {sr' : SigningRequest} {c : Bool}
    (h : signByToken now sr email r = SignOutcome.signed sr' c) :
    ∃ idx, sr.signers.findIdx? (fun s => s.email == email) = some idx ∧
      signSuccess now sr idx = SignOutcome.signed sr' c := by
  cases hidx : sr.signers.findIdx? (fun s => s.email == email) with
  | none =>
    simp only [signByToken, hidx] at h
    exact SignOutcome.noConfusion h
  | some idx =>
    refine ⟨idx, rfl, ?_⟩
    cases r with
    | some reason =>
      simp only [signByToken, hidx] at h
      split at h <;> simp at h
    | none =>
      simp only [signByToken, hidx] at h
      split at h
      · simp at h
      · exact h

/-- A sequential two-signer request (Alice then Bob, both pending),
`currentSignerIndex = 0`. -/
def srSeq : SigningRequest :=
  { signers :=
      [⟨"a@example.com", "Alice", SignerStatus.pending, none⟩,
       ⟨"b@example.com", "Bob", SignerStatus.pending, none⟩]
    signingOrder := SigningOrder.sequential
    status := SReqStatus.in_progress
    currentSignerIndex := 0
    expiresAt := none
    completedAt := none }

/-- A parallel two-signer request (Alice and Bob, both pending). -/
def srPar : SigningRequest :=
  { signers :=
      [⟨"a@example.com", "Alice", SignerStatus.pending, none⟩,
       ⟨"b@example.com", "Bob", SignerStatus.pending, none⟩]
    signingOrder := SigningOrder.parallel
    status := SReqStatus.pending
    currentSignerIndex := 0
    expiresAt := none
    completedAt := none }

/-- The state `signByToken` saves after Alice signs `srPar`. -/
def srParAfterA : SigningRequest :=
  { signers :=
      [⟨"a@example.com", "Alice", SignerStatus.signed, some 0⟩,
       ⟨"b@example.com", "Bob", SignerStatus.pending, none⟩]
    signingOrder := SigningOrder.parallel
    status := SReqStatus.in_progress
    currentSignerIndex := 0
    expiresAt := none
    completedAt := none }

end WebSign

/-- C1. The claim says terminal states (completed, cancelled, expired)
have no outgoing transitions, but `signByToken` never checks the request
status: on a cancelled request whose signer is still pending, a sign call
succeeds and saves the request with status `completed`; likewise `cancel`
moves an `expired` request to `cancelled`. Evaluation of the embedded
code at these failing inputs. -/
theorem c1_terminal_states_escape :
    WebSign.srCancelled.status = WebSign.SReqStatus.cancelled ∧
    WebSign.savedStatus
        (WebSign.signByToken 0 WebSign.srCancelled "a@example.com" none)
      = some WebSign.SReqStatus.completed ∧
    WebSign.srExpired.status = WebSign.SReqStatus.expired ∧
    WebSign.cancel WebSign.srExpired
      = some { WebSign.srExpired with status := WebSign.SReqStatus.cancelled } := by
  refine ⟨rfl, ?_, rfl, ?_⟩ <;> rfl

/-- C2. In a sequential-mode request, a `signByToken` call by a signer
found at a list index different from `currentSignerIndex` fails
Forbidden (no state is returned, hence none is saved), and every
successful sign increments `currentSignerIndex` by exactly 1. -/
theorem c2_sequential_turn_enforcement (now : Nat) (sr : WebSign.SigningRequest)
    (email : String) (rejectReason : Option String)
    (hseq : sr.signingOrder = WebSign.SigningOrder.sequential) :
    (∀ idx, sr.signers.findIdx? (fun s => s.email == email) = some idx →
      idx ≠ sr.currentSignerIndex →
      WebSign.signByToken now sr email rejectReason
        = WebSign.SignOutcome.forbiddenNotTurn) ∧
    (∀ sr' c, WebSign.signByToken now sr email rejectReason
        = WebSign.SignOutcome.signed sr' c →
      sr'.currentSignerIndex = sr.currentSignerIndex + 1) := by
  constructor
  · intro idx hidx hne
    simp [WebSign.signByToken, hidx, hseq, hne]
  · intro sr' c h
    obtain ⟨idx, hidx, hs⟩ := WebSign.signByToken_eq_signed h
    simp only [WebSign.signSuccess, WebSign.SignOutcome.signed.injEq] at hs
    obtain ⟨hsr', hc⟩ := hs
    subst hsr'
    simp [hseq]

/-- Witness for C2: on the concrete sequential request `srSeq`
(Alice at index 0, Bob at index 1, `currentSignerIndex = 0`), Bob's
attempt fails Forbidden and Alice's successful sign moves the index
to 1. -/
theorem c2_sequential_turn_enforcement_witness :
    WebSign.signByToken 0 WebSign.srSeq "b@example.com" none
      = WebSign.SignOutcome.forbiddenNotTurn ∧
    WebSign.savedIndex (WebSign.signByToken 0 WebSign.srSeq "a@example.com" none)
      = some (WebSign.srSeq.currentSignerIndex + 1) := by
  have h1 := c2_sequential_turn_enforcement 0 WebSign.srSeq "b@example.com" none rfl
  have h2 := c2_sequential_turn_enforcement 0 WebSign.srSeq "a@example.com" none rfl
  refine ⟨h1.1 1 rfl (by decide), ?_⟩
  have h3 := h2.2 _ _ rfl
  exact congrArg some h3

/-- C3. After every successful (non-rejection) `signByToken` call, the
saved request's status is `completed` iff every signer in its saved
signer list has status `signed`, and is `in_progress` otherwise. -/
theorem c3_status_completed_iff_all_signed (now : Nat)
    (sr : WebSign.SigningRequest) (email : String)
    (sr' : WebSign.SigningRequest) (c : Bool)
    (h : WebSign.signByToken now sr email none = WebSign.SignOutcome.signed sr' c) :
    (sr'.status = WebSign.SReqStatus.completed ↔
      sr'.signers.all (fun s => s.status == WebSign.SignerStatus.signed) = true) ∧
    (sr'.status ≠ WebSign.SReqStatus.completed →
      sr'.status = WebSign.SReqStatus.in_progress) := by
  obtain ⟨idx, hidx, hs⟩ := WebSign.signByToken_eq_signed h
  simp only [WebSign.signSuccess, WebSign.SignOutcome.signed.injEq] at hs
  obtain ⟨hsr', hc⟩ := hs
  subst hsr'
  by_cases hall : (WebSign.updateAt sr.signers idx
      (fun s => { s with status := WebSign.SignerStatus.signed,
                         signedAt := some now })).all
      (fun s => s.status == WebSign.SignerStatus.signed) = true
  · simp [hall]
  · simp [hall]

/-- Witness for C3: Alice signs the concrete parallel request `srPar`;
the saved state `srParAfterA` is not yet complete, its status is
`in_progress`, matching the fact that Bob is not signed. -/
theorem c3_status_completed_iff_all_signed_witness :
    (WebSign.srParAfterA.status = WebSign.SReqStatus.completed ↔
      WebSign.srParAfterA.signers.all
        (fun s => s.status == WebSign.SignerStatus.signed) = true) ∧
    (WebSign.srParAfterA.status ≠ WebSign.SReqStatus.completed →
      WebSign.srParAfterA.status = WebSign.SReqStatus.in_progress) :=
  c3_status_completed_iff_all_signed 0 WebSign.srPar "a@example.com"
    WebSign.srParAfterA false rfl

namespace WebSign

/-! ## String operations

Executable models of the JS string functions the controllers use
(`String.toLowerCase`, `String.trim`, `String.startsWith`,
`String.substring(0, n)`), written over the character list of a
`String`. -/

/-- JS `s.toLowerCase()`. -/
def jsToLower (s : String) : String := ⟨s.data.map Char.toLower⟩

/-- JS `s.trim()`. -/
def jsTrim (s : String) : String :=
  ⟨((s.data.dropWhile Char.isWhitespace).reverse.dropWhile
      Char.isWhitespace).reverse⟩

/-- JS `s.startsWith(pre)`. -/
def jsStartsWith (s pre : String) : Bool := pre.data.isPrefixOf s.data

/-- JS `s.substring(0, n)`. -/
def jsTake (s : String) (n : Nat) : String := ⟨s.data.take n⟩

/-! ## Finalization engine (`finalizeController.ts`) -/

/-- `SignatureField.type` enum (`src/backend/src/models/SignatureField.ts`). -/
inductive FieldType
  | signature
  | initials
  | name
  | date
  | text
  | input
  | checkbox
  | witness
  | stamp
deriving DecidableEq, Repr

/-- `Document.status` enum (`src/backend/src/models/Document.ts`). -/
inductive DocStatus
  | draft
  | pending
  | partially_signed
  | completed
  | archived
deriving DecidableEq, Repr

/-- The attributes of a `SignatureField` record that the finalization
engine reads. `value` is `none` for the Mongoose default `null`. -/
structure SignatureField where
  page : Nat
  x : ℚ
  y : ℚ
  width : ℚ
  height : ℚ
  type : FieldType
  value : Option String
  required : Bool
deriving DecidableEq, Repr

/-- The attributes of a `Document` record that `finalize`/`preview`
read or write. `pageHeights` holds the page heights of the loaded PDF
(one entry per page, so its length is the page count returned by
`pdfDoc.getPages()`). -/
structure Doc where
  owner : Nat
  isDeleted : Bool
  status : DocStatus
  fileName : String
  pageHeights : List ℚ
  signedFilePath : Option String
deriving DecidableEq, Repr

/-- `rgb(r, g, b)` colour from pdf-lib. -/
structure Color where
  r : ℚ
  g : ℚ
  b : ℚ
deriving DecidableEq, Repr

/-- The standard fonts the controller embeds. -/
inductive Font
  | helvetica
  | courier
  | zapfDingbats
deriving DecidableEq, Repr

/-- One pdf-lib drawing call issued while rendering a field. -/
inductive RenderOp
  | drawImage (x y w h : ℚ)
  | drawText (content : String) (x y size : ℚ) (font : Font) (color : Color)
deriving DecidableEq, Repr

/-- Stable insertion of a field into a page-sorted list: the embedding
of the `.sort({ page: 1 })` query modifier. -/
def insertByPage (f : SignatureField) : List SignatureField → List SignatureField
  | [] => [f]
  | g :: t => if f.page ≤ g.page then f :: g :: t else g :: insertByPage f t

/-- Fields of a document in ascending page order (stable). -/
def sortByPage (fields : List SignatureField) : List SignatureField :=
  fields.foldr insertByPage []

/-- The per-field-type rendering policy of `generateSignedPDF`
(`finalizeController.ts`), the loop body run by `finalize` on a field
that was not skipped. `decodeOk v` models whether
`pdfDoc.embedPng(dataURLToBytes v)` succeeds; `v` is the field's value
string and `pageHeight` the size of its page. The vertical axis is
flipped: `pdfY = pageHeight - y - height`. -/
def renderFieldFinal (decodeOk : String → Bool) (pageHeight : ℚ)
    (f : SignatureField) (v : String) : List RenderOp :=
  let pdfX := f.x
  let pdfY := pageHeight - f.y - f.height
  if f.type == FieldType.signature || f.type == FieldType.initials then
    if jsStartsWith v "data:image" then
      if decodeOk v then
        [RenderOp.drawImage pdfX pdfY f.width f.height]
      else
        [RenderOp.drawText (jsTake v 20) pdfX (pdfY + f.height / 2) 12
          Font.helvetica ⟨0, 0, 0⟩]
    else
      [RenderOp.drawText v pdfX
        (pdfY + f.height / 2 - (if f.type == FieldType.initials then 5 else 0))
        (if f.type == FieldType.initials then 16 else 12) Font.courier ⟨0, 0, 0⟩]
  else if f.type == FieldType.name || f.type == FieldType.text
      || f.type == FieldType.input then
    [RenderOp.drawText v (pdfX + 2) (pdfY + f.height / 2 - 4) 10
      Font.helvetica ⟨0, 0, 0⟩]
  else if f.type == FieldType.witness then
    if jsStartsWith v "data:image" then
      if decodeOk v then
        [RenderOp.drawImage pdfX pdfY f.width f.height]
      else
        [RenderOp.drawText ("Witness: " ++ jsTake v 20) pdfX
          (pdfY + f.height / 2) 10 Font.courier ⟨0, 0, 1/2⟩]
    else
      [RenderOp.drawText ("Witness: " ++ v) pdfX (pdfY + f.height / 2) 12
        Font.courier ⟨0, 0, 1/2⟩]
  else if f.type == FieldType.date then
    [RenderOp.drawText v (pdfX + 2) (pdfY + f.height / 2 - 4) 10
      Font.helvetica ⟨0, 0, 1/2⟩]
  else if f.type == FieldType.checkbox && v == "checked" then
    [RenderOp.drawText "✓" (pdfX + 8) (pdfY + 5) 14 Font.zapfDingbats
      ⟨0, 1/2, 0⟩]
  else
    []

/-- The per-field-type rendering policy of `finalizeController.preview`
(`finalizeController.ts`): an inline copy of the finalize loop, with
branches for signature/initials, name/text/input, date and checkbox —
and no branch for witness (or stamp). -/
def renderFieldPreview (decodeOk : String → Bool) (pageHeight : ℚ)
    (f : SignatureField) (v : String) : List RenderOp :=
  let pdfX := f.x
  let pdfY := pageHeight - f.y - f.height
  if f.type == FieldType.signature || f.type == FieldType.initials then
    if jsStartsWith v "data:image" then
      if decodeOk v then
        [RenderOp.drawImage pdfX pdfY f.width f.height]
      else
        [RenderOp.drawText (jsTake v 20) pdfX (pdfY + f.height / 2) 12
          Font.helvetica ⟨0, 0, 0⟩]
    else
      [RenderOp.drawText v pdfX
        (pdfY + f.height / 2 - (if f.type == FieldType.initials then 5 else 0))
        (if f.type == FieldType.initials then 16 else 12) Font.courier ⟨0, 0, 0⟩]
  else if f.type == FieldType.name || f.type == FieldType.text
      || f.type == FieldType.input then
    [RenderOp.drawText v (pdfX + 2) (pdfY + f.height / 2 - 4) 10
      Font.helvetica ⟨0, 0, 0⟩]
  else if f.type == FieldType.date then
    [RenderOp.drawText v (pdfX + 2) (pdfY + f.height / 2 - 4) 10
      Font.helvetica ⟨0, 0, 1/2⟩]
  else if f.type == FieldType.checkbox && v == "checked" then
    [RenderOp.drawText "✓" (pdfX + 8) (pdfY + 5) 14 Font.zapfDingbats
      ⟨0, 1/2, 0⟩]
  else
    []

/-- The loop-level skip shared by both pipelines: a field is skipped
(drawing nothing) when its page exceeds the loaded page count or its
value is JS-falsy (`field.page > pages.length || !field.value`);
otherwise its page's height is looked up and the field is rendered with
the given per-field policy. -/
def embedFieldOps
    (render : (String → Bool) → ℚ → SignatureField → String → List RenderOp)
    (decodeOk : String → Bool) (pageHeights : List ℚ)
    (f : SignatureField) : List RenderOp :=
  if pageHeights.length < f.page || !(jsTruthy f.value) then []
  else render decodeOk (pageHeights.getD (f.page - 1) 0) f (f.value.getD "")

/-- `generateSignedPDF` (`finalizeController.ts`): loads the document's
fields sorted by page, draws each non-skipped one with the finalize
policy, saves the result as `uploads/signed/signed_<fileName>`, and
updates the document to `completed` with the artifact reference. The
first component is the sequence of drawing calls baked into the saved
artifact. -/
def generateSignedPDF (decodeOk : String → Bool) (doc : Doc)
    (fields : List SignatureField) : List RenderOp × Doc :=
  let ops := (sortByPage fields).flatMap
    (embedFieldOps renderFieldFinal decodeOk doc.pageHeights)
  (ops,
    { doc with
      signedFilePath := some ("uploads/signed/signed_" ++ doc.fileName)
      status := DocStatus.completed })

/-- Result of `finalizeController.finalize`: 404 when the owner-scoped
lookup fails, 400 with the unfilled-required count when the gate fails,
otherwise the artifact's drawing calls, the saved document and the
reported `fieldsEmbedded`. -/
inductive FinalizeResult
  | notFound
  | validationError (unfilledCount : Nat)
  | ok (artifact : List RenderOp) (doc : Doc) (fieldsEmbedded : Nat)
deriving DecidableEq, Repr

/-- The unfilled-required count computed by the finalize gate:
`fields.filter(f => f.required).filter(f => !f.value).length`. -/
def unfilledRequiredCount (fields : List SignatureField) : Nat :=
  ((fields.filter (fun f => f.required)).filter
    (fun f => !(jsTruthy f.value))).length

/-- `finalizeController.finalize` (`finalizeController.ts`): owner-scoped
document lookup (`{_id, owner, isDeleted: false}`), the required-field
gate, then `generateSignedPDF` followed by a second
`document.status = 'completed'` save; responds with the signed file, the
document and `fieldsEmbedded: fields.length`. No check of the document's
prior status is performed. -/
def finalize (decodeOk : String → Bool) (caller : Nat) (doc : Doc)
    (fields : List SignatureField) : FinalizeResult :=
  if doc.owner != caller || doc.isDeleted then FinalizeResult.notFound
  else if 0 < unfilledRequiredCount fields then
    FinalizeResult.validationError (unfilledRequiredCount fields)
  else
    let gen := generateSignedPDF decodeOk doc fields
    FinalizeResult.ok gen.1 { gen.2 with status := DocStatus.completed }
      fields.length

/-- Result of `finalizeController.preview`: 404 on lookup failure, else
the transient rendered bytes; nothing is persisted and no document field
is mutated. -/
inductive PreviewResult
  | notFound
  | ok (bytes : List RenderOp)
deriving DecidableEq, Repr

/-- `finalizeController.preview` (`finalizeController.ts`): owner-scoped
lookup, then the inline rendering loop with the preview policy; the
bytes are sent without saving an artifact or touching the document. -/
def preview (decodeOk : String → Bool) (caller : Nat) (doc : Doc)
    (fields : List SignatureField) : PreviewResult :=
  if doc.owner != caller || doc.isDeleted then PreviewResult.notFound
  else PreviewResult.ok ((sortByPage fields).flatMap
    (embedFieldOps renderFieldPreview decodeOk doc.pageHeights))

/-- The number of fields both pipelines actually draw (not skipped):
those with a JS-truthy value whose page is within the loaded page
count. -/
def embeddedCount (pageHeights : List ℚ) (fields : List SignatureField) : Nat :=
  (fields.filter
    (fun f => !(pageHeights.length < f.page || !(jsTruthy f.value)))).length

/-- The `fieldsEmbedded` figure reported by a finalize outcome. -/
def reportedEmbedded : FinalizeResult → Option Nat
  | FinalizeResult.ok _ _ n => some n
  | _ => none

end WebSign

namespace WebSign

/-- Generic split of a filtered list by a second predicate. -/
theorem length_filter_split {α : Type} (l : List α) (p q : α → Bool) :
    (l.filter p).length
      = (l.filter (fun a => p a && q a)).length
        + ((l.filter p).filter (fun a => !(q a))).length := by
  induction l with
  | nil => rfl
  | cons a t ih =>
    cases hp : p a <;> cases hq : q a <;>
      simp [List.filter_cons, hp, hq] at ih ⊢ <;> omega

/-- `fun _ => true` image decoder: every `data:image` payload embeds. -/
def decodeAll : String → Bool := fun _ => true

/-- A one-page document owned by user 7, not deleted. -/
def doc4 : Doc :=
  { owner := 7
    isDeleted := false
    status := DocStatus.pending
    fileName := "contract.pdf"
    pageHeights := [800]
    signedFilePath := none }

/-- Two required fields, the text one unfilled: `N = 2`, `M = 1`. -/
def fields4 : List SignatureField :=
  [{ page := 1, x := 10, y := 20, width := 150, height := 50
     type := FieldType.name, value := some "John Doe", required := true },
   { page := 1, x := 10, y := 100, width := 150, height := 50
     type := FieldType.text, value := none, required := true }]

/-- The same two fields with both values present: `M = N = 2`. -/
def fields4b : List SignatureField :=
  [{ page := 1, x := 10, y := 20, width := 150, height := 50
     type := FieldType.name, value := some "John Doe", required := true },
   { page := 1, x := 10, y := 100, width := 150, height := 50
     type := FieldType.text, value := some "agreed", required := true }]

/-- One required field holding the empty string: its value is non-null,
yet the gate's JS-truthiness test `!field.value` counts it unfilled. -/
def fieldsEmptyVal : List SignatureField :=
  [{ page := 1, x := 10, y := 20, width := 150, height := 50
     type := FieldType.text, value := some "", required := true }]

/-- Two required fields, one with a null value and one holding the
empty string: one non-null value, but the gate counts two unfilled. -/
def fieldsEmptyVal2 : List SignatureField :=
  [{ page := 1, x := 10, y := 20, width := 150, height := 50
     type := FieldType.text, value := none, required := true },
   { page := 1, x := 10, y := 100, width := 150, height := 50
     type := FieldType.text, value := some "", required := true }]

end WebSign

/-- C4 counterexample. The gate tests JS truthiness (`!field.value`),
not non-nullness: a required field whose value is the empty string is a
non-null value the claim counts as filled, yet finalize fails
Validation. With `fieldsEmptyVal` (one required field, value `""`),
`M = N = 1` by the claim's non-null count but finalize reports 1
unfilled instead of proceeding; with `fieldsEmptyVal2`, `M = 1 < N = 2`
and `N - M = 1` but finalize reports 2. -/
theorem c4_gate_nonnull_counterexample :
    (WebSign.fieldsEmptyVal.filter
        (fun f => f.required && f.value.isSome)).length
      = (WebSign.fieldsEmptyVal.filter (fun f => f.required)).length ∧
    WebSign.finalize WebSign.decodeAll 7 WebSign.doc4 WebSign.fieldsEmptyVal
      = WebSign.FinalizeResult.validationError 1 ∧
    (WebSign.fieldsEmptyVal2.filter (fun f => f.required)).length
        - (WebSign.fieldsEmptyVal2.filter
            (fun f => f.required && f.value.isSome)).length
      = 1 ∧
    WebSign.finalize WebSign.decodeAll 7 WebSign.doc4 WebSign.fieldsEmptyVal2
      = WebSign.FinalizeResult.validationError 2 ∧
    (2 : Nat) ≠ 1 :=
  ⟨rfl, rfl, rfl, rfl, by decide⟩

/-- C4 amended. Reaching the gate (owner matches, not deleted), a
document with `N` required fields of which `M` hold a JS-truthy value
(non-null and non-empty — the gate tests `!field.value`, so a required
field holding the empty string counts as unfilled): with `M < N`
finalize fails Validation reporting exactly `N - M` unfilled and
produces no artifact (the `validationError` outcome carries none); with
`M = N` the gate passes and finalization proceeds to the rendering
pipeline. -/
theorem c4_finalize_required_gate_amended (decodeOk : String → Bool)
    (caller : Nat) (doc : WebSign.Doc) (fields : List WebSign.SignatureField)
    (hown : doc.owner = caller) (hdel : doc.isDeleted = false) :
    ((fields.filter (fun f => f.required && WebSign.jsTruthy f.value)).length
        < (fields.filter (fun f => f.required)).length →
      WebSign.finalize decodeOk caller doc fields
        = WebSign.FinalizeResult.validationError
            ((fields.filter (fun f => f.required)).length
              - (fields.filter
                  (fun f => f.required && WebSign.jsTruthy f.value)).length)) ∧
    ((fields.filter (fun f => f.required && WebSign.jsTruthy f.value)).length
        = (fields.filter (fun f => f.required)).length →
      WebSign.finalize decodeOk caller doc fields
        = WebSign.FinalizeResult.ok
            (WebSign.generateSignedPDF decodeOk doc fields).1
            { (WebSign.generateSignedPDF decodeOk doc fields).2 with
                status := WebSign.DocStatus.completed }
            fields.length) := by
  subst hown
  have hsplit : (fields.filter (fun f => f.required)).length
      = (fields.filter (fun f => f.required && WebSign.jsTruthy f.value)).length
        + WebSign.unfilledRequiredCount fields := by
    unfold WebSign.unfilledRequiredCount
    exact WebSign.length_filter_split fields (fun f => f.required)
      (fun f => WebSign.jsTruthy f.value)
  constructor
  · intro hlt
    have hu : 0 < WebSign.unfilledRequiredCount fields := by omega
    have hveq : WebSign.unfilledRequiredCount fields
        = (fields.filter (fun f => f.required)).length
          - (fields.filter
              (fun f => f.required && WebSign.jsTruthy f.value)).length := by
      omega
    simp [WebSign.finalize, hdel, hu, hveq]
    all_goals omega
  · intro heq
    have hu : WebSign.unfilledRequiredCount fields = 0 := by omega
    simp [WebSign.finalize, hdel, hu]

/-- Witness for the amended C4: a concrete document with two required
fields, one unfilled (fails Validation reporting `2 - 1`), and with
both filled (proceeds to the rendering pipeline). -/
theorem c4_finalize_required_gate_amended_witness :
    WebSign.finalize WebSign.decodeAll 7 WebSign.doc4 WebSign.fields4
      = WebSign.FinalizeResult.validationError (2 - 1) ∧
    WebSign.finalize WebSign.decodeAll 7 WebSign.doc4 WebSign.fields4b
      = WebSign.FinalizeResult.ok
          (WebSign.generateSignedPDF WebSign.decodeAll WebSign.doc4 WebSign.fields4b).1
          { (WebSign.generateSignedPDF WebSign.decodeAll WebSign.doc4 WebSign.fields4b).2 with
              status := WebSign.DocStatus.completed }
          2 :=
  ⟨(c4_finalize_required_gate_amended WebSign.decodeAll 7 WebSign.doc4
      WebSign.fields4 rfl rfl).1 (by decide),
   (c4_finalize_required_gate_amended WebSign.decodeAll 7 WebSign.doc4
      WebSign.fields4b rfl rfl).2 (by decide)⟩

namespace WebSign

/-- A document already finalized once: status `completed`, artifact on
record, owner 7, one page, one filled required field. -/
def doc10 : Doc :=
  { owner := 7
    isDeleted := false
    status := DocStatus.completed
    fileName := "contract.pdf"
    pageHeights := [800]
    signedFilePath := some "uploads/signed/signed_contract.pdf" }

/-- One filled required signature field for `doc10`. -/
def fields10 : List SignatureField :=
  [{ page := 1, x := 10, y := 20, width := 150, height := 50
     type := FieldType.signature, value := some "Jane Doe", required := true }]

/-- A one-page pending document with one filled signature field and one
optional unfilled text field: the input showing `fieldsEmbedded` counts
skipped fields. -/
def doc6 : Doc :=
  { owner := 0
    isDeleted := false
    status := DocStatus.pending
    fileName := "nda.pdf"
    pageHeights := [800]
    signedFilePath := none }

/-- Two fields for `doc6`: a filled signature (embedded) and an optional
unfilled text field (skipped by the rendering loop). -/
def fields6 : List SignatureField :=
  [{ page := 1, x := 10, y := 20, width := 150, height := 50
     type := FieldType.signature, value := some "Jane Doe", required := true },
   { page := 1, x := 10, y := 100, width := 150, height := 50
     type := FieldType.text, value := none, required := false }]

/-- A filled witness field with a plain-text value: rendered by the
finalize pipeline, skipped by the preview pipeline. -/
def wfield : SignatureField :=
  { page := 1, x := 10, y := 20, width := 150, height := 50
    type := FieldType.witness, value := some "Wit Ness", required := true }

end WebSign

/-- C10. Finalize performs no Conflict check on the document's prior
status: for a document whose status is already `completed`, once the
owner check and the required-field gate pass, finalize re-runs the full
rendering pipeline, writes a new signed artifact, and leaves the status
`completed`. -/
theorem c10_finalize_on_completed_proceeds (decodeOk : String → Bool)
    (caller : Nat) (doc : WebSign.Doc) (fields : List WebSign.SignatureField)
    (hstatus : doc.status = WebSign.DocStatus.completed)
    (hown : doc.owner = caller) (hdel : doc.isDeleted = false)
    (hgate : WebSign.unfilledRequiredCount fields = 0) :
    WebSign.finalize decodeOk caller doc fields
      = WebSign.FinalizeResult.ok
          ((WebSign.sortByPage fields).flatMap
            (WebSign.embedFieldOps WebSign.renderFieldFinal decodeOk
              doc.pageHeights))
          { doc with
              signedFilePath := some ("uploads/signed/signed_" ++ doc.fileName)
              status := WebSign.DocStatus.completed }
          fields.length := by
  subst hown
  simp [WebSign.finalize, WebSign.generateSignedPDF, hdel, hgate]

/-- Witness for C10: finalize on the concrete already-completed `doc10`
succeeds, re-renders its field and reports it, with status still
`completed`. -/
theorem c10_finalize_on_completed_proceeds_witness :
    WebSign.finalize WebSign.decodeAll 7 WebSign.doc10 WebSign.fields10
      = WebSign.FinalizeResult.ok
          ((WebSign.sortByPage WebSign.fields10).flatMap
            (WebSign.embedFieldOps WebSign.renderFieldFinal WebSign.decodeAll
              WebSign.doc10.pageHeights))
          { WebSign.doc10 with
              signedFilePath :=
                some ("uploads/signed/signed_" ++ WebSign.doc10.fileName)
              status := WebSign.DocStatus.completed }
          WebSign.fields10.length :=
  c10_finalize_on_completed_proceeds WebSign.decodeAll 7 WebSign.doc10
    WebSign.fields10 rfl rfl rfl (by decide)

/-- C6 counterexample. On `doc6`/`fields6` finalize reports
`fieldsEmbedded = 2` (the total number of fields) while the rendering
loop embeds only 1 field (the optional unfilled one is skipped), so the
claim that `fieldsEmbedded` is the count of fields actually embedded is
false. -/
theorem c6_reported_embedded_counterexample :
    WebSign.reportedEmbedded
        (WebSign.finalize WebSign.decodeAll 0 WebSign.doc6 WebSign.fields6)
      = some 2 ∧
    WebSign.embeddedCount WebSign.doc6.pageHeights WebSign.fields6 = 1 ∧
    (2 : Nat) ≠ 1 :=
  ⟨rfl, rfl, by decide⟩

/-- C6 amended: finalize reports as `fieldsEmbedded` the total number of
the document's SignatureFields (`fields.length`), counting also fields
the rendering loop skipped for a null value or an out-of-range page. -/
theorem c6_reported_embedded_is_field_count (decodeOk : String → Bool)
    (caller : Nat) (doc : WebSign.Doc) (fields : List WebSign.SignatureField)
    (hown : doc.owner = caller) (hdel : doc.isDeleted = false)
    (hgate : WebSign.unfilledRequiredCount fields = 0) :
    WebSign.reportedEmbedded (WebSign.finalize decodeOk caller doc fields)
      = some fields.length := by
  subst hown
  simp [WebSign.finalize, WebSign.reportedEmbedded, hdel, hgate]

/-- Witness for the amended C6 at the concrete `doc6`/`fields6`. -/
theorem c6_reported_embedded_is_field_count_witness :
    WebSign.reportedEmbedded
        (WebSign.finalize WebSign.decodeAll 0 WebSign.doc6 WebSign.fields6)
      = some WebSign.fields6.length :=
  c6_reported_embedded_is_field_count WebSign.decodeAll 0 WebSign.doc6
    WebSign.fields6 rfl rfl (by decide)

/-- C5. The preview loop is a divergent copy of the finalize loop with
no branch for witness fields: on a filled text-valued witness field the
finalize pipeline draws the `Witness:` text, while preview draws
nothing, so the two per-field policies differ and a field type rendered
by finalize is not rendered by preview. -/
theorem c5_preview_skips_witness_fields :
    (WebSign.generateSignedPDF WebSign.decodeAll WebSign.doc6 [WebSign.wfield]).1
      = [WebSign.RenderOp.drawText "Witness: Wit Ness" 10
          (800 - 20 - 50 + 50 / 2) 12 WebSign.Font.courier ⟨0, 0, 1/2⟩] ∧
    WebSign.preview WebSign.decodeAll 0 WebSign.doc6 [WebSign.wfield]
      = WebSign.PreviewResult.ok [] ∧
    WebSign.embedFieldOps WebSign.renderFieldFinal WebSign.decodeAll
        WebSign.doc6.pageHeights WebSign.wfield
      ≠ WebSign.embedFieldOps WebSign.renderFieldPreview WebSign.decodeAll
          WebSign.doc6.pageHeights WebSign.wfield := by
  refine ⟨rfl, rfl, by decide⟩

namespace WebSign

/-! ## Recipient access gateway (`documentRecipientController.ts`) -/

/-- `DocumentRecipient.role` enum. -/
inductive Role
  | signer
  | witness
  | reviewer
deriving DecidableEq, Repr

/-- `DocumentRecipient.status` values used by the signing path. -/
inductive RecipientStatus
  | pending
  | signed
  | declined
  | completed
deriving DecidableEq, Repr

/-- The attributes of a `DocumentRecipient` record that the two public
endpoints read or write. `addRecipients` stores `email.toLowerCase()`,
so stored emails are lowercase. -/
structure DocumentRecipient where
  email : String
  name : String
  role : Role
  status : RecipientStatus
  signedAt : Option Nat
deriving DecidableEq, Repr

/-- The document attributes the recipient endpoints read or write. -/
structure RecDoc where
  status : DocStatus
deriving DecidableEq, Repr

/-- Result of `getPublicDocumentSigning`: an HTTP error status, or the
matched recipient returned with the signing view. -/
inductive PublicView
  | err (code : Nat)
  | ok (recipient : DocumentRecipient)
deriving DecidableEq, Repr

/-- `getPublicDocumentSigning` (`documentRecipientController.ts`):
404 when the document id resolves to nothing; then a recipient lookup by
`{document, email: email.toLowerCase().trim()}`; 404 (with a combined
"not found or no permission" message) when no recipient matches. -/
def getPublicDocumentSigning (doc : Option RecDoc)
    (recips : List DocumentRecipient) (email : String) : PublicView :=
  match doc with
  | none => PublicView.err 404
  | some _ =>
    match recips.find? (fun r => r.email == jsTrim (jsToLower email)) with
    | none => PublicView.err 404
    | some r => PublicView.ok r

/-- Result of `signDocumentByRecipient`: an HTTP error status, or the
saved recipient list, the saved document and the `completed` flag of the
response. -/
inductive RecipientSignOutcome
  | err (code : Nat)
  | ok (recips : List DocumentRecipient) (doc : RecDoc) (completed : Bool)
deriving DecidableEq, Repr

/-- The success tail of `signDocumentByRecipient`: flips the matched
recipient to `signed` with a timestamp, reloads all recipients of the
document, and sets the document status to `completed` only when every
recipient (of any role) is `signed` — otherwise the document is left
untouched. -/
def recipientSignSuccess (now : Nat) (d : RecDoc)
    (recips : List DocumentRecipient) (idx : Nat) : RecipientSignOutcome :=
  let recips' := updateAt recips idx
    (fun r => { r with status := RecipientStatus.signed, signedAt := some now })
  let allSigned := recips'.all (fun r => r.status == RecipientStatus.signed)
  RecipientSignOutcome.ok recips'
    (if allSigned then { d with status := DocStatus.completed } else d)
    allSigned

/-- `signDocumentByRecipient` (`documentRecipientController.ts`):
404 when the document is missing; recipient lookup by
`{document, email: email.toLowerCase()}`, 403 when none matches;
400 when the matched recipient's status is not `pending`; otherwise the
success tail. The unreachable 500 covers the index returned by the
lookup falling outside the list, which `findIdx?` never produces. -/
def signDocumentByRecipient (now : Nat) (doc : Option RecDoc)
    (recips : List DocumentRecipient) (email : String) : RecipientSignOutcome :=
  match doc with
  | none => RecipientSignOutcome.err 404
  | some d =>
    match recips.findIdx? (fun r => r.email == jsToLower email) with
    | none => RecipientSignOutcome.err 403
    | some idx =>
      match recips[idx]? with
      | none => RecipientSignOutcome.err 500
      | some r =>
        if r.status != RecipientStatus.pending then
          RecipientSignOutcome.err 400
        else recipientSignSuccess now d recips idx

end WebSign

namespace WebSign

/-- A pending recipient record for Bob (stored lowercase, role signer). -/
def recipBob : DocumentRecipient :=
  { email := "bob@example.com", name := "Bob", role := Role.signer
    status := RecipientStatus.pending, signedAt := none }

/-- An existing, pending document for the recipient endpoints. -/
def recDoc0 : RecDoc := { status := DocStatus.pending }

/-- A pending signer together with a pending witness recipient. -/
def recipsMixed : List DocumentRecipient :=
  [{ email := "signer@example.com", name := "Sigrid", role := Role.signer
     status := RecipientStatus.pending, signedAt := none },
   { email := "witness@example.com", name := "Wim", role := Role.witness
     status := RecipientStatus.pending, signedAt := none }]

/-- `recipsMixed` after the signer has signed at time 0. -/
def recipsMixedAfter : List DocumentRecipient :=
  [{ email := "signer@example.com", name := "Sigrid", role := Role.signer
     status := RecipientStatus.signed, signedAt := some 0 },
   { email := "witness@example.com", name := "Wim", role := Role.witness
     status := RecipientStatus.pending, signedAt := none }]

end WebSign

/-- C7 counterexample. The claim says a failed recipient match yields
Forbidden — never NotFound — regardless of whether the document exists,
but `getPublicDocumentSigning` answers 404 both when the document
exists with no matching recipient and when the document is missing
(and `signDocumentByRecipient` answers 404 for a missing document). -/
theorem c7_resolve_error_counterexample :
    WebSign.getPublicDocumentSigning (some WebSign.recDoc0) [WebSign.recipBob]
        "alice@example.com" = WebSign.PublicView.err 404 ∧
    WebSign.getPublicDocumentSigning none [WebSign.recipBob]
        "alice@example.com" = WebSign.PublicView.err 404 ∧
    WebSign.signDocumentByRecipient 0 none [WebSign.recipBob]
        "alice@example.com" = WebSign.RecipientSignOutcome.err 404 ∧
    (404 : Nat) ≠ 403 :=
  ⟨rfl, rfl, rfl, by decide⟩

/-- C7 amended. Both resolve operations lowercase the probe email
(`getPublicDocumentSigning` also trims it) before matching it against
the stored (lowercased) recipient emails, so emails equal up to case
resolve identically; when the document exists and no recipient matches,
`signDocumentByRecipient` fails Forbidden (403) while
`getPublicDocumentSigning` fails NotFound (404); when the document does
not exist, both fail NotFound (404). -/
theorem c7_resolve_amended (now : Nat) (d : WebSign.RecDoc)
    (dopt : Option WebSign.RecDoc) (recips : List WebSign.DocumentRecipient)
    (e1 e2 : String) (hlow : WebSign.jsToLower e1 = WebSign.jsToLower e2) :
    WebSign.getPublicDocumentSigning none recips e1
      = WebSign.PublicView.err 404 ∧
    WebSign.signDocumentByRecipient now none recips e1
      = WebSign.RecipientSignOutcome.err 404 ∧
    (recips.find? (fun r => r.email == WebSign.jsTrim (WebSign.jsToLower e1))
        = none →
      WebSign.getPublicDocumentSigning (some d) recips e1
        = WebSign.PublicView.err 404) ∧
    (recips.findIdx? (fun r => r.email == WebSign.jsToLower e1) = none →
      WebSign.signDocumentByRecipient now (some d) recips e1
        = WebSign.RecipientSignOutcome.err 403) ∧
    WebSign.getPublicDocumentSigning dopt recips e1
      = WebSign.getPublicDocumentSigning dopt recips e2 ∧
    WebSign.signDocumentByRecipient now dopt recips e1
      = WebSign.signDocumentByRecipient now dopt recips e2 := by
  refine ⟨rfl, rfl, ?_, ?_, ?_, ?_⟩
  · intro hm
    simp only [WebSign.getPublicDocumentSigning, hm]
  · intro hm
    simp only [WebSign.signDocumentByRecipient, hm]
  · simp only [WebSign.getPublicDocumentSigning, hlow]
  · simp only [WebSign.signDocumentByRecipient, hlow]

/-- Witness for the amended C7 at a document with Bob as the only
recipient, probed with two spellings of Alice's address. -/
theorem c7_resolve_amended_witness :
    WebSign.getPublicDocumentSigning none [WebSign.recipBob]
        "Alice@Example.com" = WebSign.PublicView.err 404 ∧
    WebSign.signDocumentByRecipient 0 none [WebSign.recipBob]
        "Alice@Example.com" = WebSign.RecipientSignOutcome.err 404 ∧
    ([WebSign.recipBob].find?
        (fun r => r.email == WebSign.jsTrim (WebSign.jsToLower "Alice@Example.com"))
        = none →
      WebSign.getPublicDocumentSigning (some WebSign.recDoc0) [WebSign.recipBob]
        "Alice@Example.com" = WebSign.PublicView.err 404) ∧
    ([WebSign.recipBob].findIdx?
        (fun r => r.email == WebSign.jsToLower "Alice@Example.com") = none →
      WebSign.signDocumentByRecipient 0 (some WebSign.recDoc0) [WebSign.recipBob]
        "Alice@Example.com" = WebSign.RecipientSignOutcome.err 403) ∧
    WebSign.getPublicDocumentSigning (some WebSign.recDoc0) [WebSign.recipBob]
        "Alice@Example.com"
      = WebSign.getPublicDocumentSigning (some WebSign.recDoc0) [WebSign.recipBob]
          "alice@EXAMPLE.com" ∧
    WebSign.signDocumentByRecipient 0 (some WebSign.recDoc0) [WebSign.recipBob]
        "Alice@Example.com"
      = WebSign.signDocumentByRecipient 0 (some WebSign.recDoc0) [WebSign.recipBob]
          "alice@EXAMPLE.com" :=
  c7_resolve_amended 0 WebSign.recDoc0 (some WebSign.recDoc0) [WebSign.recipBob]
    "Alice@Example.com" "alice@EXAMPLE.com" (by decide)

/-- C8 counterexample. After the only role=signer recipient signs, the
claim says the document status is recomputed to `completed` (all signers
signed); the code instead requires every recipient of any role to be
signed and otherwise leaves the document untouched, so with a pending
witness recipient the document stays `pending` — neither `completed`
nor `partially_signed`. -/
theorem c8_doc_status_counterexample :
    WebSign.signDocumentByRecipient 0 (some WebSign.recDoc0) WebSign.recipsMixed
        "signer@example.com"
      = WebSign.RecipientSignOutcome.ok WebSign.recipsMixedAfter
          WebSign.recDoc0 false ∧
    (WebSign.recipsMixedAfter.filter (fun r => r.role == WebSign.Role.signer)).all
        (fun r => r.status == WebSign.RecipientStatus.signed) = true ∧
    WebSign.recDoc0.status ≠ WebSign.DocStatus.completed ∧
    WebSign.recDoc0.status ≠ WebSign.DocStatus.partially_signed :=
  ⟨rfl, rfl, by decide, by decide⟩

/-- C8 amended. After every successful recipient sign, the response's
`completed` flag is `recips'.every(status=='signed')` over all saved
recipients regardless of role, and the document is set to `completed`
exactly when that flag holds — otherwise it is left unchanged (this
path never sets `partially_signed`). -/
theorem c8_doc_status_amended (now : Nat) (d : WebSign.RecDoc)
    (recips recips' : List WebSign.DocumentRecipient) (email : String)
    (d' : WebSign.RecDoc) (c : Bool)
    (h : WebSign.signDocumentByRecipient now (some d) recips email
      = WebSign.RecipientSignOutcome.ok recips' d' c) :
    c = recips'.all (fun r => r.status == WebSign.RecipientStatus.signed) ∧
    d' = (if c = true then { d with status := WebSign.DocStatus.completed }
          else d) := by
  cases hidx : recips.findIdx? (fun r => r.email == WebSign.jsToLower email) with
  | none =>
    simp only [WebSign.signDocumentByRecipient, hidx] at h
    exact WebSign.RecipientSignOutcome.noConfusion h
  | some idx =>
    cases hget : recips[idx]? with
    | none =>
      simp only [WebSign.signDocumentByRecipient, hidx, hget] at h
      exact WebSign.RecipientSignOutcome.noConfusion h
    | some r =>
      simp only [WebSign.signDocumentByRecipient, hidx, hget] at h
      split at h
      · exact WebSign.RecipientSignOutcome.noConfusion h
      · simp only [WebSign.recipientSignSuccess,
          WebSign.RecipientSignOutcome.ok.injEq] at h
        obtain ⟨h1, h2, h3⟩ := h
        subst h1
        subst h3
        exact ⟨rfl, h2.symm⟩

/-- Witness for the amended C8: the signer of `recipsMixed` signs; the
flag is false (the witness recipient is pending) and the document is
returned unchanged. -/
theorem c8_doc_status_amended_witness :
    false = WebSign.recipsMixedAfter.all
        (fun r => r.status == WebSign.RecipientStatus.signed) ∧
    WebSign.recDoc0 = (if false = true
      then { WebSign.recDoc0 with status := WebSign.DocStatus.completed }
      else WebSign.recDoc0) :=
  c8_doc_status_amended 0 WebSign.recDoc0 WebSign.recipsMixed
    WebSign.recipsMixedAfter "signer@example.com" WebSign.recDoc0 false rfl

namespace WebSign

/-! ## Coordinate transform (`SignDocument.tsx`) -/

/-- A field's position and size (x, y, width, height), in either
document space or display space. -/
structure FieldBox where
  x : ℚ
  y : ℚ
  w : ℚ
  h : ℚ
deriving DecidableEq, Repr

/-- The spec contract `toDisplay(field, scale)`: multiply each
coordinate by the scale. -/
def toDisplay (p : FieldBox) (s : ℚ) : FieldBox :=
  ⟨p.x * s, p.y * s, p.w * s, p.h * s⟩

/-- The spec contract `toDocumentSpace(point, scale)`: divide each
coordinate by the scale. -/
def toDocumentSpace (p : FieldBox) (s : ℚ) : FieldBox :=
  ⟨p.x / s, p.y / s, p.w / s, p.h / s⟩

/-- The normalization performed by `handlePageClick`
(`SignDocument.tsx`): the captured click position and the tool's
default size are each divided by the current scale before the field is
persisted. -/
def handlePageClickNormalize (clickX clickY cfgW cfgH scale : ℚ) : FieldBox :=
  ⟨clickX / scale, clickY / scale, cfgW / scale, cfgH / scale⟩

/-- The placement computed by `getFieldStyle` (`SignDocument.tsx`):
`left/top/width/height` are the stored coordinates multiplied by the
current scale. -/
def getFieldStyle (f : FieldBox) (scale : ℚ) : FieldBox :=
  ⟨f.x * scale, f.y * scale, f.w * scale, f.h * scale⟩

end WebSign

/-- C9. For every field box and every scale `s > 0`, mapping to display
space and back to document space returns the original box exactly (so
in particular within 1e-6 on each coordinate); field creation
(`handlePageClick`) is exactly `toDocumentSpace` on the captured screen
coordinates, and rendering (`getFieldStyle`) is exactly `toDisplay` on
the stored coordinates. -/
theorem c9_coordinate_round_trip (p : WebSign.FieldBox)
    (s clickX clickY cfgW cfgH : ℚ) (hs : 0 < s) :
    WebSign.toDocumentSpace (WebSign.toDisplay p s) s = p ∧
    |(WebSign.toDocumentSpace (WebSign.toDisplay p s) s).x - p.x|
        ≤ 1 / 1000000 ∧
    |(WebSign.toDocumentSpace (WebSign.toDisplay p s) s).y - p.y|
        ≤ 1 / 1000000 ∧
    |(WebSign.toDocumentSpace (WebSign.toDisplay p s) s).w - p.w|
        ≤ 1 / 1000000 ∧
    |(WebSign.toDocumentSpace (WebSign.toDisplay p s) s).h - p.h|
        ≤ 1 / 1000000 ∧
    WebSign.handlePageClickNormalize clickX clickY cfgW cfgH s
      = WebSign.toDocumentSpace ⟨clickX, clickY, cfgW, cfgH⟩ s ∧
    WebSign.getFieldStyle p s = WebSign.toDisplay p s := by
  have hne : s ≠ 0 := ne_of_gt hs
  have hcancel : ∀ a : ℚ, a * s / s = a := fun a => mul_div_cancel_right₀ a hne
  refine ⟨?_, ?_, ?_, ?_, ?_, rfl, rfl⟩
  · cases p with
    | mk x y w h =>
      simp [WebSign.toDisplay, WebSign.toDocumentSpace, hcancel]
  · simp [WebSign.toDisplay, WebSign.toDocumentSpace, hcancel]
  · simp [WebSign.toDisplay, WebSign.toDocumentSpace, hcancel]
  · simp [WebSign.toDisplay, WebSign.toDocumentSpace, hcancel]
  · simp [WebSign.toDisplay, WebSign.toDocumentSpace, hcancel]

/-- Witness for C9 at the concrete box (3, 5, 150, 50) and scale 3/2. -/
theorem c9_coordinate_round_trip_witness :
    WebSign.toDocumentSpace (WebSign.toDisplay ⟨3, 5, 150, 50⟩ (3/2)) (3/2)
      = (⟨3, 5, 150, 50⟩ : WebSign.FieldBox) ∧
    |(WebSign.toDocumentSpace (WebSign.toDisplay ⟨3, 5, 150, 50⟩ (3/2)) (3/2)).x
        - (3 : ℚ)| ≤ 1 / 1000000 ∧
    |(WebSign.toDocumentSpace (WebSign.toDisplay ⟨3, 5, 150, 50⟩ (3/2)) (3/2)).y
        - (5 : ℚ)| ≤ 1 / 1000000 ∧
    |(WebSign.toDocumentSpace (WebSign.toDisplay ⟨3, 5, 150, 50⟩ (3/2)) (3/2)).w
        - (150 : ℚ)| ≤ 1 / 1000000 ∧
    |(WebSign.toDocumentSpace (WebSign.toDisplay ⟨3, 5, 150, 50⟩ (3/2)) (3/2)).h
        - (50 : ℚ)| ≤ 1 / 1000000 ∧
    WebSign.handlePageClickNormalize 7 11 150 50 (3/2)
      = WebSign.toDocumentSpace ⟨7, 11, 150, 50⟩ (3/2) ∧
    WebSign.getFieldStyle ⟨3, 5, 150, 50⟩ (3/2)
      = WebSign.toDisplay ⟨3, 5, 150, 50⟩ (3/2) :=
  c9_coordinate_round_trip ⟨3, 5, 150, 50⟩ (3/2) 7 11 150 50 (by norm_num)
